import Mathlib

/-
Verification of `oss_kamodo_installer.py` (GDC-SOC/oss_kamodo_installer).

The script is embedded shallowly: every function of the source becomes a pure
Lean function that, given an oracle `World` describing how the operating
system answers (search-path lookups, filesystem queries, external process
spawns), returns the list of observable events the run produces (log records,
path lookups, recursive directory deletions, spawn attempts) together with the
control-flow outcome (normal return, `sys.exit(code)`, or an uncaught Python
exception).  The module-level logging setup (creation of the `logs/` file) is
not an external-tool action and is elided from the event trace.
-/

set_option maxHeartbeats 1000000

namespace OssKamodo

/-- Severity of a log record (the script only uses `logging.info` and
`logging.error`). -/
inductive LogLevel where
  | info
  | error
deriving DecidableEq

/-- Outcome of the operating system attempting to run one external command
(the behaviour of `subprocess.check_call` on one invocation).  `exited code`
means a process was actually spawned and terminated with `code`;
`fileNotFound` means the executable could not be resolved, so no external
process ran; `permissionDenied` and `otherOsError` are spawn-level OS
failures, under which no external process ran either. -/
inductive SpawnResult where
  | exited (code : Nat)
  | fileNotFound (msg : String)
  | permissionDenied (msg : String)
  | otherOsError (msg : String)
deriving DecidableEq

/-- The Python exceptions the script distinguishes in its `except` clauses:
`subprocess.CalledProcessError`, `FileNotFoundError`, `PermissionError`, and
other `OSError`.  (`FileNotFoundError` and `PermissionError` are subclasses
of `OSError`; the constructors here are mutually exclusive, mirroring which
`except` clause fires first in the source.) -/
inductive PyExn where
  | calledProcessError (returncode : Nat)
  | fileNotFoundError (msg : String)
  | permissionError (msg : String)
  | osError (msg : String)
deriving DecidableEq

/-- Observable events of a run, in order of occurrence:
* `log lvl msg` — a record written to both logging sinks;
* `which exe res` — a `shutil.which` lookup of `exe` on the search path;
* `rmtree dir` — a `shutil.rmtree` attempt on `dir`;
* `spawnAttempt exe args res` — one `subprocess.check_call([exe] + args)`
  invocation and the OS outcome it produced (for a `fileNotFound` result the
  attempt resolves nothing and no external process runs). -/
inductive Event where
  | log (lvl : LogLevel) (msg : String)
  | which (exe : String) (res : Option String)
  | rmtree (dir : String)
  | spawnAttempt (exe : String) (args : List String) (res : SpawnResult)
deriving DecidableEq

/-- Oracle for everything the run asks of the operating system:
`whichPath exe` is what `shutil.which(exe)` returns; `pathExists p` is
`os.path.exists(p)`; `rmtreeError d` is `none` when `shutil.rmtree(d)`
succeeds and `some e` when it raises `e`; `spawn exe args` is how the OS
answers `subprocess.check_call([exe] + args)`. -/
structure World where
  whichPath : String → Option String
  pathExists : String → Bool
  rmtreeError : String → Option PyExn
  spawn : String → List String → SpawnResult

/-- Model of `subprocess.check_call([exe] + args)`: records the spawn attempt and
either returns normally (exit status 0) or raises the corresponding Python
exception. -/
def check_call (w : World) (exe : String) (args : List String) :
    List Event × Except PyExn Unit :=
  match w.spawn exe args with
  | .exited 0 =>
      ([.spawnAttempt exe args (.exited 0)], .ok ())
  | .exited (c + 1) =>
      ([.spawnAttempt exe args (.exited (c + 1))],
       .error (.calledProcessError (c + 1)))
  | .fileNotFound m =>
      ([.spawnAttempt exe args (.fileNotFound m)],
       .error (.fileNotFoundError m))
  | .permissionDenied m =>
      ([.spawnAttempt exe args (.permissionDenied m)],
       .error (.permissionError m))
  | .otherOsError m =>
      ([.spawnAttempt exe args (.otherOsError m)],
       .error (.osError m))

/-- Control-flow outcome of one script function: a normal `return`, a direct
`sys.exit(code)`, or a Python exception propagating out uncaught. -/
inductive StepExit where
  | normal
  | exit (code : Nat)
  | uncaught (e : PyExn)
deriving DecidableEq

/-- The fixed nine-element default package list of `read_settings`. -/
def default_packages : List String :=
  ["netCDF4", "cdflib", "astropy", "ipython",
   "jupyter", "h5py", "sgp4", "spacepy", "hapiclient"]

/-- A well-formed configuration document: a JSON object with the two
recognized optional keys (`env_name`, a string, and `packages`, a list of
strings). -/
structure ConfigDoc where
  env_name : Option String
  packages : Option (List String)
deriving DecidableEq

/-- State of the settings file as `read_settings` finds it: absent
(`FileNotFoundError`), present but not JSON (`json.JSONDecodeError`),
unreadable (`IOError`, carrying the exception message), or a well-formed
document. -/
inductive FileState where
  | missing
  | malformed
  | ioError (msg : String)
  | valid (doc : ConfigDoc)
deriving DecidableEq

/-- The settings dictionary after `read_settings` applied its defaults: both
keys are guaranteed present. -/
structure Settings where
  env_name : String
  packages : List String
deriving DecidableEq

/-- Embedding of `read_settings(json_file)`: loads the JSON document and applies
`setdefault` for the two recognized keys.  On any of the three handled
exceptions it logs the cause and calls `sys.exit(1)` (returned here as
`none`, which `main` turns into exit code 1). -/
def read_settings (json_file : String) (fs : FileState) :
    List Event × Option Settings :=
  match fs with
  | .missing =>
      ([.log .error ("JSON file not found: " ++ json_file)], none)
  | .malformed =>
      ([.log .error ("Error decoding JSON file: " ++ json_file)], none)
  | .ioError m =>
      ([.log .error ("I/O error while reading JSON file: " ++ m)], none)
  | .valid doc =>
      ([], some { env_name := doc.env_name.getD "Kamodo_env",
                  packages := doc.packages.getD default_packages })

/-- Embedding of `create_mamba_env(env_name)`: `mamba create -n env_name python=3.7 -y`,
with handlers for `CalledProcessError`, `FileNotFoundError` and `OSError`
(the latter also catching permission errors), each logging and exiting 1. -/
def create_mamba_env (w : World) (env_name : String) : List Event × StepExit :=
  let lg0 := Event.log .info ("Creating Conda environment: " ++ env_name)
  match check_call w "mamba" ["create", "-n", env_name, "python=3.7", "-y"] with
  | (ev, .ok _) =>
      (lg0 :: ev ++
        [.log .info ("Conda environment " ++ env_name ++ " created successfully.")],
       .normal)
  | (ev, .error (.calledProcessError c)) =>
      (lg0 :: ev ++
        [.log .error ("Mamba command failed with exit code " ++ toString c ++
          " while creating Conda environment " ++ env_name ++ ".")],
       .exit 1)
  | (ev, .error (.fileNotFoundError _)) =>
      (lg0 :: ev ++
        [.log .error "Mamba is not installed or not found in PATH. Please install Mamba and try again."],
       .exit 1)
  | (ev, .error (.permissionError m)) =>
      (lg0 :: ev ++
        [.log .error ("An OS error occurred while creating Conda environment " ++
          env_name ++ ": " ++ m)],
       .exit 1)
  | (ev, .error (.osError m)) =>
      (lg0 :: ev ++
        [.log .error ("An OS error occurred while creating Conda environment " ++
          env_name ++ ": " ++ m)],
       .exit 1)

/-- Embedding of `install_packages(env_name, packages)`:
`mamba install -n env_name -c conda-forge <packages> -y`, one invocation for
the whole list, with the same three handlers as `create_mamba_env`. -/
def install_packages (w : World) (env_name : String) (packages : List String) :
    List Event × StepExit :=
  match check_call w "mamba"
      (["install", "-n", env_name, "-c", "conda-forge"] ++ packages ++ ["-y"]) with
  | (ev, .ok _) =>
      (ev ++ [.log .info ("Packages installed successfully in environment " ++
        env_name ++ ".")],
       .normal)
  | (ev, .error (.calledProcessError c)) =>
      (ev ++ [.log .error ("Mamba command failed with exit code " ++ toString c ++
        " while installing packages in environment " ++ env_name ++ ".")],
       .exit 1)
  | (ev, .error (.fileNotFoundError _)) =>
      (ev ++ [.log .error "Mamba is not installed or not found in PATH. Please install Mamba and try again."],
       .exit 1)
  | (ev, .error (.permissionError m)) =>
      (ev ++ [.log .error ("An OS error occurred while installing packages in environment " ++
        env_name ++ ": " ++ m)],
       .exit 1)
  | (ev, .error (.osError m)) =>
      (ev ++ [.log .error ("An OS error occurred while installing packages in environment " ++
        env_name ++ ": " ++ m)],
       .exit 1)

/-- The fixed clone URL of `install_kamodo_ccmc`. -/
def repo_url : String := "https://github.com/nasa/Kamodo.git"

/-- The fixed local clone directory of `install_kamodo_ccmc`. -/
def clone_dir : String := "Kamodo"

/-- The `try` block of `install_kamodo_ccmc`, entered only after git was
resolved to `git_executable`: delete a stale clone directory if present,
clone the repository, then `conda run -n env_name pip install Kamodo`.
Any raised exception is returned for the surrounding handlers. -/
def install_kamodo_body (w : World) (env_name git_executable : String) :
    List Event × Except PyExn Unit :=
  let step0 : List Event × Except PyExn Unit :=
    if w.pathExists clone_dir then
      ([Event.log .info "Directory Kamodo already exists. Deleting it to proceed.",
        Event.rmtree clone_dir],
       match w.rmtreeError clone_dir with
       | none => Except.ok ()
       | some e => Except.error e)
    else ([], Except.ok ())
  match step0 with
  | (ev0, .error e) => (ev0, .error e)
  | (ev0, .ok _) =>
    let ev1 := ev0 ++ [Event.log .info "Cloning the Kamodo repository..."]
    match check_call w git_executable ["clone", repo_url, clone_dir] with
    | (ev2, .error e) => (ev1 ++ ev2, .error e)
    | (ev2, .ok _) =>
      let ev3 := ev1 ++ ev2 ++
        [Event.log .info "Repository cloned successfully.",
         Event.log .info "Installing Kamodo..."]
      match check_call w "conda" ["run", "-n", env_name, "pip", "install", "Kamodo"] with
      | (ev4, .error e) => (ev3 ++ ev4, .error e)
      | (ev4, .ok _) =>
          (ev3 ++ ev4 ++
            [Event.log .info ("Kamodo installed successfully in " ++ env_name ++ ".")],
           .ok ())

/-- Embedding of `install_kamodo_ccmc(env_name)`: resolve git with `shutil.which` (exit 1
immediately when absent), then run the try block, with handlers for
`CalledProcessError`, `FileNotFoundError`, `PermissionError` and `OSError`,
each logging and exiting 1. -/
def install_kamodo_ccmc (w : World) (env_name : String) : List Event × StepExit :=
  match w.whichPath "git" with
  | none =>
      ([Event.which "git" none,
        Event.log .error "Git is not installed or not found in PATH. Please install Git and try again."],
       .exit 1)
  | some git_executable =>
    match install_kamodo_body w env_name git_executable with
    | (ev, .ok _) =>
        (Event.which "git" (some git_executable) :: ev, .normal)
    | (ev, .error (.calledProcessError c)) =>
        (Event.which "git" (some git_executable) :: ev ++
          [.log .error ("Command failed with exit code " ++ toString c ++
            ": Command returned non-zero exit status " ++ toString c ++ ".")],
         .exit 1)
    | (ev, .error (.fileNotFoundError m)) =>
        (Event.which "git" (some git_executable) :: ev ++
          [.log .error ("Required executable not found: " ++ m)],
         .exit 1)
    | (ev, .error (.permissionError m)) =>
        (Event.which "git" (some git_executable) :: ev ++
          [.log .error ("Permission error occurred: " ++ m)],
         .exit 1)
    | (ev, .error (.osError m)) =>
        (Event.which "git" (some git_executable) :: ev ++
          [.log .error ("An OS error occurred: " ++ m)],
         .exit 1)

/-- The `try` block of `enable_jupyter_kernel`: install `ipykernel` into the
environment, then register the environment as a Jupyter kernel. -/
def enable_jupyter_body (w : World) (env_name : String) :
    List Event × Except PyExn Unit :=
  match check_call w "mamba" ["install", "-n", env_name, "ipykernel", "-y"] with
  | (ev, .error e) => (ev, .error e)
  | (ev, .ok _) =>
    match check_call w "conda"
        ["run", "-n", env_name, "python", "-m", "ipykernel", "install",
         "--user", "--name", env_name,
         "--display-name", "Python (" ++ env_name ++ ")"] with
    | (ev2, .error e) => (ev ++ ev2, .error e)
    | (ev2, .ok _) =>
        (ev ++ ev2 ++
          [Event.log .info ("Jupyter kernel for environment " ++ env_name ++
            " installed successfully.")],
         .ok ())

/-- Embedding of `enable_jupyter_kernel(env_name)`: the two-command body with handlers for
`CalledProcessError`, `FileNotFoundError`, `PermissionError` and `OSError`,
each logging and exiting 1. -/
def enable_jupyter_kernel (w : World) (env_name : String) : List Event × StepExit :=
  match enable_jupyter_body w env_name with
  | (ev, .ok _) => (ev, .normal)
  | (ev, .error (.calledProcessError c)) =>
      (ev ++ [.log .error ("Command failed with exit code " ++ toString c ++
        " while enabling Jupyter kernel for environment " ++ env_name ++ ".")],
       .exit 1)
  | (ev, .error (.fileNotFoundError _)) =>
      (ev ++ [.log .error "Required executable not found. Ensure that Mamba, Conda, and Python are in PATH."],
       .exit 1)
  | (ev, .error (.permissionError m)) =>
      (ev ++ [.log .error ("Permission error while enabling Jupyter kernel: " ++ m)],
       .exit 1)
  | (ev, .error (.osError m)) =>
      (ev ++ [.log .error ("An OS error occurred while enabling Jupyter kernel: " ++ m)],
       .exit 1)

/-- Embedding of `tear_down_env(env_name)`: `conda env remove -n env_name -y`.  Only
`CalledProcessError` and `FileNotFoundError` have handlers; a
`PermissionError` or other `OSError` raised by the spawn propagates out of
the function uncaught. -/
def tear_down_env (w : World) (env_name : String) : List Event × StepExit :=
  match check_call w "conda" ["env", "remove", "-n", env_name, "-y"] with
  | (ev, .ok _) =>
      (ev ++ [.log .info ("Conda environment " ++ env_name ++ " has been removed.")],
       .normal)
  | (ev, .error (.calledProcessError c)) =>
      (ev ++ [.log .error ("Failed to remove Conda environment " ++ env_name ++
        ". Process error: Command returned non-zero exit status " ++ toString c ++ ".")],
       .exit 1)
  | (ev, .error (.fileNotFoundError m)) =>
      (ev ++ [.log .error ("The conda command was not found. Ensure Conda is installed and in PATH. Error: " ++ m)],
       .exit 1)
  | (ev, .error (.permissionError m)) => (ev, .uncaught (.permissionError m))
  | (ev, .error (.osError m)) => (ev, .uncaught (.osError m))

/-- Outcome of the whole process: an exit status established by `sys.exit`
or by `main` returning normally, or a Python exception escaping `main`
uncaught (CPython then terminates the process with a traceback on stderr,
outside the logging system, with a non-zero status). -/
inductive RunOutcome where
  | exitCode (code : Nat)
  | uncaught (e : PyExn)
deriving DecidableEq

/-- The provisioning branch of `main`: the four steps in source order, each
`sys.exit` or uncaught exception of a step ending the run immediately. -/
def provision_run (w : World) (st : Settings) : List Event × RunOutcome :=
  match create_mamba_env w st.env_name with
  | (ev1, .exit c) => (ev1, .exitCode c)
  | (ev1, .uncaught e) => (ev1, .uncaught e)
  | (ev1, .normal) =>
    match install_packages w st.env_name st.packages with
    | (ev2, .exit c) => (ev1 ++ ev2, .exitCode c)
    | (ev2, .uncaught e) => (ev1 ++ ev2, .uncaught e)
    | (ev2, .normal) =>
      match install_kamodo_ccmc w st.env_name with
      | (ev3, .exit c) => (ev1 ++ ev2 ++ ev3, .exitCode c)
      | (ev3, .uncaught e) => (ev1 ++ ev2 ++ ev3, .uncaught e)
      | (ev3, .normal) =>
        match enable_jupyter_kernel w st.env_name with
        | (ev4, .exit c) => (ev1 ++ ev2 ++ ev3 ++ ev4, .exitCode c)
        | (ev4, .uncaught e) => (ev1 ++ ev2 ++ ev3 ++ ev4, .uncaught e)
        | (ev4, .normal) => (ev1 ++ ev2 ++ ev3 ++ ev4, .exitCode 0)

/-- The teardown branch of `main`: `tear_down_env` then `return` (so a
normal return of the step ends the process with exit code 0). -/
def teardown_run (w : World) (st : Settings) : List Event × RunOutcome :=
  match tear_down_env w st.env_name with
  | (ev, .normal) => (ev, .exitCode 0)
  | (ev, .exit c) => (ev, .exitCode c)
  | (ev, .uncaught e) => (ev, .uncaught e)

/-- The fixed settings path used by `main`. -/
def settings_file : String := "oss_kamodo_installer_settings.json"

/-- Embedding of `main()`: read the settings (that call itself exits 1 on failure), then
dispatch on whether `--clean` occurs anywhere in `sys.argv`. -/
def main (argv : List String) (fs : FileState) (w : World) :
    List Event × RunOutcome :=
  match read_settings settings_file fs with
  | (ev0, none) => (ev0, .exitCode 1)
  | (ev0, some st) =>
    if argv.contains "--clean" then
      match teardown_run w st with
      | (ev1, r) => (ev0 ++ ev1, r)
    else
      match provision_run w st with
      | (ev1, r) => (ev0 ++ ev1, r)

/-- Is the event an error-level log record? -/
def Event.isErrorLog : Event → Bool
  | .log .error _ => true
  | _ => false

/-- Is the event any interaction with the outside world (search-path lookup,
filesystem deletion, or spawn attempt), as opposed to a log record? -/
def Event.isExternal : Event → Bool
  | .which _ _ => true
  | .rmtree _ => true
  | .spawnAttempt _ _ _ => true
  | _ => false

/-- Is the event a recursive directory deletion? -/
def Event.isRmtreeEvent : Event → Bool
  | .rmtree _ => true
  | _ => false

/-- Is the event a search-path lookup? -/
def Event.isWhichEvent : Event → Bool
  | .which _ _ => true
  | _ => false

/-- Is the event a spawn attempt of an external command? -/
def Event.isSpawnAttempt : Event → Bool
  | .spawnAttempt _ _ _ => true
  | _ => false

/-- Did the event actually run an external process (a spawn attempt the OS
answered with an exit status, rather than failing before execution)? -/
def Event.ranProcess : Event → Bool
  | .spawnAttempt _ _ (.exited _) => true
  | _ => false

/-- The command of a spawn-attempt event, if the event is one. -/
def Event.spawnCmd : Event → Option (String × List String)
  | .spawnAttempt exe args _ => some (exe, args)
  | _ => none

/-- A world in which every tool resolves, every spawn succeeds, no stale
clone directory exists and deletions succeed. -/
def w_ok : World :=
  { whichPath := fun e => some e,
    pathExists := fun _ => false,
    rmtreeError := fun _ => none,
    spawn := fun _ _ => .exited 0 }

/-- A world in which no executable resolves on the search path: `which`
finds nothing and every spawn attempt fails with a file-not-found error. -/
def w_no_tools : World :=
  { whichPath := fun _ => none,
    pathExists := fun _ => false,
    rmtreeError := fun _ => none,
    spawn := fun _ _ => .fileNotFound "No such file or directory" }

/-- A world in which every spawn attempt fails with a permission error. -/
def w_perm : World :=
  { whichPath := fun e => some e,
    pathExists := fun _ => false,
    rmtreeError := fun _ => none,
    spawn := fun _ _ => .permissionDenied "Permission denied" }

/-- A world with a stale clone directory whose recursive deletion fails. -/
def w_rmfail : World :=
  { whichPath := fun e => some e,
    pathExists := fun _ => true,
    rmtreeError := fun _ => some (PyExn.osError "Directory not empty"),
    spawn := fun _ _ => .exited 0 }

/-- A world with a stale clone directory whose deletion succeeds. -/
def w_stale : World :=
  { whichPath := fun e => some e,
    pathExists := fun _ => true,
    rmtreeError := fun _ => none,
    spawn := fun _ _ => .exited 0 }

/-! ### Helper lemmas -/

/-- Every `check_call` records exactly its one spawn attempt. -/
lemma check_call_fst (w : World) (exe : String) (args : List String) :
    (check_call w exe args).1 = [Event.spawnAttempt exe args (w.spawn exe args)] := by
  unfold check_call
  cases w.spawn exe args with
  | exited c => cases c <;> rfl
  | fileNotFound m => rfl
  | permissionDenied m => rfl
  | otherOsError m => rfl

/-- Lemma: `install_packages` performs exactly one spawn attempt, passing the
configured package list verbatim between the channel flag and `-y`. -/
lemma install_packages_spawns (w : World) (n : String) (ps : List String) :
    (install_packages w n ps).1.filterMap Event.spawnCmd =
      [("mamba", ["install", "-n", n, "-c", "conda-forge"] ++ ps ++ ["-y"])] := by
  unfold install_packages
  rcases hcc : check_call w "mamba" (["install", "-n", n, "-c", "conda-forge"] ++ ps ++ ["-y"])
    with ⟨ev, r⟩
  have hev := check_call_fst w "mamba" (["install", "-n", n, "-c", "conda-forge"] ++ ps ++ ["-y"])
  rw [hcc] at hev
  simp only at hev
  subst hev
  rcases r with e | _
  · rcases e with c | m | m | m <;> simp [Event.spawnCmd]
  · simp [Event.spawnCmd]

/-- Lemma: `create_mamba_env` either returns normally or logs an error and exits 1
(all its spawn failures are caught by its handlers). -/
lemma create_mamba_env_spec (w : World) (n : String) :
    (create_mamba_env w n).2 = .normal ∨
      ((create_mamba_env w n).2 = .exit 1 ∧
       (create_mamba_env w n).1.any Event.isErrorLog = true) := by
  unfold create_mamba_env
  rcases hcc : check_call w "mamba" ["create", "-n", n, "python=3.7", "-y"] with ⟨ev, r⟩
  rcases r with e | _
  · rcases e with c | m | m | m <;> (right; simp [Event.isErrorLog])
  · left; simp

/-- Lemma: `install_packages` either returns normally or logs an error and exits 1. -/
lemma install_packages_spec (w : World) (n : String) (ps : List String) :
    (install_packages w n ps).2 = .normal ∨
      ((install_packages w n ps).2 = .exit 1 ∧
       (install_packages w n ps).1.any Event.isErrorLog = true) := by
  unfold install_packages
  rcases hcc : check_call w "mamba"
      (["install", "-n", n, "-c", "conda-forge"] ++ ps ++ ["-y"]) with ⟨ev, r⟩
  rcases r with e | _
  · rcases e with c | m | m | m <;> (right; simp [Event.isErrorLog])
  · left; simp

/-- Lemma: `install_kamodo_ccmc` either returns normally or logs an error and
exits 1 (missing git, and all four exception kinds, are caught). -/
lemma install_kamodo_ccmc_spec (w : World) (n : String) :
    (install_kamodo_ccmc w n).2 = .normal ∨
      ((install_kamodo_ccmc w n).2 = .exit 1 ∧
       (install_kamodo_ccmc w n).1.any Event.isErrorLog = true) := by
  unfold install_kamodo_ccmc
  cases hg : w.whichPath "git" with
  | none => right; simp [Event.isErrorLog]
  | some p =>
      rcases hb : install_kamodo_body w n p with ⟨ev, r⟩
      rcases r with e | _
      · rcases e with c | m | m | m <;> (right; simp [hb, Event.isErrorLog])
      · left; simp [hb]

/-- Lemma: `enable_jupyter_kernel` either returns normally or logs an error and
exits 1. -/
lemma enable_jupyter_kernel_spec (w : World) (n : String) :
    (enable_jupyter_kernel w n).2 = .normal ∨
      ((enable_jupyter_kernel w n).2 = .exit 1 ∧
       (enable_jupyter_kernel w n).1.any Event.isErrorLog = true) := by
  unfold enable_jupyter_kernel
  rcases hb : enable_jupyter_body w n with ⟨ev, r⟩
  rcases r with e | _
  · rcases e with c | m | m | m <;> (right; simp [Event.isErrorLog])
  · left; simp

/-- Lemma: `tear_down_env` returns normally, or logs an error and exits 1 (for a
non-zero exit status or a missing conda), or — for a permission or other OS
spawn error — lets the exception escape uncaught with nothing logged. -/
lemma tear_down_env_spec (w : World) (n : String) :
    (tear_down_env w n).2 = .normal ∨
      ((tear_down_env w n).2 = .exit 1 ∧
       (tear_down_env w n).1.any Event.isErrorLog = true) ∨
      (∃ e, (tear_down_env w n).2 = .uncaught e ∧
       (tear_down_env w n).1.any Event.isErrorLog = false) := by
  unfold tear_down_env
  rcases hcc : check_call w "conda" ["env", "remove", "-n", n, "-y"] with ⟨ev, r⟩
  have hev := check_call_fst w "conda" ["env", "remove", "-n", n, "-y"]
  rw [hcc] at hev
  simp at hev
  subst hev
  rcases r with e | _
  · rcases e with c | m | m | m
    · right; left; simp [Event.isErrorLog]
    · right; left; simp [Event.isErrorLog]
    · right; right
      refine ⟨PyExn.permissionError m, ?_, ?_⟩ <;> simp [Event.isErrorLog]
    · right; right
      refine ⟨PyExn.osError m, ?_, ?_⟩ <;> simp [Event.isErrorLog]
  · left; simp

/-- A failed settings load always logs an error-level record. -/
lemma read_settings_failure_logged (fs : FileState)
    (h : (read_settings settings_file fs).2 = none) :
    (read_settings settings_file fs).1.any Event.isErrorLog = true := by
  cases fs with
  | missing => simp [read_settings, Event.isErrorLog]
  | malformed => simp [read_settings, Event.isErrorLog]
  | ioError m => simp [read_settings, Event.isErrorLog]
  | valid d => simp [read_settings] at h

/-- With `--clean` absent, `main` on a valid document is exactly the
provisioning branch on the defaulted settings. -/
lemma main_provision (argv : List String) (doc : ConfigDoc) (w : World)
    (h : argv.contains "--clean" = false) :
    main argv (.valid doc) w =
      provision_run w { env_name := doc.env_name.getD "Kamodo_env",
                        packages := doc.packages.getD default_packages } := by
  have h' : "--clean" ∉ argv := by simpa using h
  rcases hp : provision_run w { env_name := doc.env_name.getD "Kamodo_env",
                                packages := doc.packages.getD default_packages } with ⟨ev, r⟩
  simp [main, read_settings, h', hp]

/-- With `--clean` present, `main` on a valid document is exactly the
teardown branch on the defaulted settings. -/
lemma main_teardown (argv : List String) (doc : ConfigDoc) (w : World)
    (h : argv.contains "--clean" = true) :
    main argv (.valid doc) w =
      teardown_run w { env_name := doc.env_name.getD "Kamodo_env",
                       packages := doc.packages.getD default_packages } := by
  have h' : "--clean" ∈ argv := by simpa using h
  rcases ht : teardown_run w { env_name := doc.env_name.getD "Kamodo_env",
                               packages := doc.packages.getD default_packages } with ⟨ev, r⟩
  simp [main, read_settings, h', ht]

/-- The teardown branch produces exactly the trace of `tear_down_env`. -/
lemma teardown_run_fst (w : World) (st : Settings) :
    (teardown_run w st).1 = (tear_down_env w st.env_name).1 := by
  unfold teardown_run
  rcases ht : tear_down_env w st.env_name with ⟨ev, r⟩
  rcases r with _ | c | e <;> simp

/-- Lemma: `tear_down_env` spawns exactly the single environment-removal command
and performs no directory deletion and no search-path lookup. -/
lemma tear_down_env_frame (w : World) (n : String) :
    (tear_down_env w n).1.filterMap Event.spawnCmd =
      [("conda", ["env", "remove", "-n", n, "-y"])] ∧
    (tear_down_env w n).1.any Event.isRmtreeEvent = false ∧
    (tear_down_env w n).1.any Event.isWhichEvent = false := by
  unfold tear_down_env
  rcases hcc : check_call w "conda" ["env", "remove", "-n", n, "-y"] with ⟨ev, r⟩
  have hev := check_call_fst w "conda" ["env", "remove", "-n", n, "-y"]
  rw [hcc] at hev
  simp at hev
  subst hev
  rcases r with e | _
  · rcases e with c | m | m | m <;> refine ⟨?_, ?_, ?_⟩ <;>
      simp [Event.spawnCmd, Event.isRmtreeEvent, Event.isWhichEvent]
  · refine ⟨?_, ?_, ?_⟩ <;>
      simp [Event.spawnCmd, Event.isRmtreeEvent, Event.isWhichEvent]

/-- If the first step exits, provisioning stops there. -/
lemma provision_run_step1 (w : World) (st : Settings)
    (h1 : (create_mamba_env w st.env_name).2 = .exit 1) :
    provision_run w st = ((create_mamba_env w st.env_name).1, .exitCode 1) := by
  unfold provision_run
  rcases hc1 : create_mamba_env w st.env_name with ⟨ev1, r1⟩
  rw [hc1] at h1
  simp at h1
  subst h1
  simp

/-- If the first step succeeds and the second exits, provisioning stops
after the second. -/
lemma provision_run_step2 (w : World) (st : Settings)
    (h1 : (create_mamba_env w st.env_name).2 = .normal)
    (h2 : (install_packages w st.env_name st.packages).2 = .exit 1) :
    provision_run w st =
      ((create_mamba_env w st.env_name).1 ++
        (install_packages w st.env_name st.packages).1, .exitCode 1) := by
  unfold provision_run
  rcases hc1 : create_mamba_env w st.env_name with ⟨ev1, r1⟩
  rw [hc1] at h1
  simp at h1
  subst h1
  rcases hc2 : install_packages w st.env_name st.packages with ⟨ev2, r2⟩
  rw [hc2] at h2
  simp at h2
  subst h2
  simp

/-- If the first two steps succeed and the third exits, provisioning stops
after the third. -/
lemma provision_run_step3 (w : World) (st : Settings)
    (h1 : (create_mamba_env w st.env_name).2 = .normal)
    (h2 : (install_packages w st.env_name st.packages).2 = .normal)
    (h3 : (install_kamodo_ccmc w st.env_name).2 = .exit 1) :
    provision_run w st =
      ((create_mamba_env w st.env_name).1 ++
        (install_packages w st.env_name st.packages).1 ++
        (install_kamodo_ccmc w st.env_name).1, .exitCode 1) := by
  unfold provision_run
  rcases hc1 : create_mamba_env w st.env_name with ⟨ev1, r1⟩
  rw [hc1] at h1
  simp at h1
  subst h1
  rcases hc2 : install_packages w st.env_name st.packages with ⟨ev2, r2⟩
  rw [hc2] at h2
  simp at h2
  subst h2
  rcases hc3 : install_kamodo_ccmc w st.env_name with ⟨ev3, r3⟩
  rw [hc3] at h3
  simp at h3
  subst h3
  simp

/-- If the first three steps succeed and the fourth exits, provisioning
stops after the fourth. -/
lemma provision_run_step4 (w : World) (st : Settings)
    (h1 : (create_mamba_env w st.env_name).2 = .normal)
    (h2 : (install_packages w st.env_name st.packages).2 = .normal)
    (h3 : (install_kamodo_ccmc w st.env_name).2 = .normal)
    (h4 : (enable_jupyter_kernel w st.env_name).2 = .exit 1) :
    provision_run w st =
      ((create_mamba_env w st.env_name).1 ++
        (install_packages w st.env_name st.packages).1 ++
        (install_kamodo_ccmc w st.env_name).1 ++
        (enable_jupyter_kernel w st.env_name).1, .exitCode 1) := by
  unfold provision_run
  rcases hc1 : create_mamba_env w st.env_name with ⟨ev1, r1⟩
  rw [hc1] at h1
  simp at h1
  subst h1
  rcases hc2 : install_packages w st.env_name st.packages with ⟨ev2, r2⟩
  rw [hc2] at h2
  simp at h2
  subst h2
  rcases hc3 : install_kamodo_ccmc w st.env_name with ⟨ev3, r3⟩
  rw [hc3] at h3
  simp at h3
  subst h3
  rcases hc4 : enable_jupyter_kernel w st.env_name with ⟨ev4, r4⟩
  rw [hc4] at h4
  simp at h4
  subst h4
  simp

/-- If all four steps succeed, provisioning runs them all and the process
ends with exit code 0. -/
lemma provision_run_ok (w : World) (st : Settings)
    (h1 : (create_mamba_env w st.env_name).2 = .normal)
    (h2 : (install_packages w st.env_name st.packages).2 = .normal)
    (h3 : (install_kamodo_ccmc w st.env_name).2 = .normal)
    (h4 : (enable_jupyter_kernel w st.env_name).2 = .normal) :
    provision_run w st =
      ((create_mamba_env w st.env_name).1 ++
        (install_packages w st.env_name st.packages).1 ++
        (install_kamodo_ccmc w st.env_name).1 ++
        (enable_jupyter_kernel w st.env_name).1, .exitCode 0) := by
  unfold provision_run
  rcases hc1 : create_mamba_env w st.env_name with ⟨ev1, r1⟩
  rw [hc1] at h1
  simp at h1
  subst h1
  rcases hc2 : install_packages w st.env_name st.packages with ⟨ev2, r2⟩
  rw [hc2] at h2
  simp at h2
  subst h2
  rcases hc3 : install_kamodo_ccmc w st.env_name with ⟨ev3, r3⟩
  rw [hc3] at h3
  simp at h3
  subst h3
  rcases hc4 : enable_jupyter_kernel w st.env_name with ⟨ev4, r4⟩
  rw [hc4] at h4
  simp at h4
  subst h4
  simp

/-! ### Claims -/

/-- C2: for every valid configuration document, `read_settings` returns a
settings value whose `packages` is exactly the list of the document (unchanged,
no deduplication or validation — the list is later passed verbatim to the
install command) when the key is present, else the fixed nine-element
default, and whose `env_name` is the value from the document when present, else
`"Kamodo_env"`; no events are produced. -/
theorem c2_settings_passthrough (f : String) (doc : ConfigDoc) :
    (read_settings f (.valid doc)).1 = [] ∧
    (read_settings f (.valid doc)).2 =
      some { env_name := match doc.env_name with
               | some n => n
               | none => "Kamodo_env",
             packages := match doc.packages with
               | some ps => ps
               | none => ["netCDF4", "cdflib", "astropy", "ipython",
                          "jupyter", "h5py", "sgp4", "spacepy", "hapiclient"] } ∧
    ∀ w n ps, (install_packages w n ps).1.filterMap Event.spawnCmd =
      [("mamba", ["install", "-n", n, "-c", "conda-forge"] ++ ps ++ ["-y"])] := by
  refine ⟨rfl, ?_, fun w n ps => install_packages_spawns w n ps⟩
  rcases doc with ⟨en, ps⟩
  rcases en with _ | n <;> rcases ps with _ | p <;> rfl

/-- C8 counterexample: a document whose `env_name` is the empty string is
accepted unchanged, so the produced settings value has an empty environment
name. -/
theorem c8_counterexample :
    (read_settings settings_file
        (FileState.valid { env_name := some "", packages := none })).2.map
      Settings.env_name = some "" := rfl

/-- C8 (amended): every settings value produced by `read_settings` from an
accepted configuration document has a non-empty environment name, provided
the document does not itself supply an explicitly empty `env_name` (the
loader performs no validation and passes an empty string through). -/
theorem c8_amended (f : String) (doc : ConfigDoc) (s : Settings)
    (hdoc : doc.env_name ≠ some "")
    (hs : (read_settings f (.valid doc)).2 = some s) :
    s.env_name ≠ "" := by
  rcases doc with ⟨en, ps⟩
  cases en with
  | none =>
      have h : s = { env_name := "Kamodo_env", packages := ps.getD default_packages } := by
        simpa [read_settings] using hs.symm
      have h2 : s.env_name = "Kamodo_env" := by rw [h]
      rw [h2]
      decide
  | some n =>
      have h : s = { env_name := n, packages := ps.getD default_packages } := by
        simpa [read_settings] using hs.symm
      have h2 : s.env_name = n := by rw [h]
      rw [h2]
      simpa using hdoc

/-- C8 witness: the amended statement applied to a concrete document. -/
theorem c8_amended_witness : ("sp_env" : String) ≠ "" :=
  c8_amended "oss_kamodo_installer_settings.json"
    { env_name := some "sp_env", packages := none }
    { env_name := "sp_env", packages := default_packages }
    (by decide) rfl

/-- C1: in Provision mode (no `--clean` argument) the run is exactly the
four steps `create_mamba_env`, `install_packages`, `install_kamodo_ccmc`,
`enable_jupyter_kernel` in that order: the first step with a non-normal
outcome ends the process with exit code 1, its trace ending the trace of the run
(so no later step contributes any event), and if all four return normally
the process exits with code 0 after all four traces in order. -/
theorem c1_provision_sequence (argv : List String) (doc : ConfigDoc) (w : World)
    (h : argv.contains "--clean" = false) :
    ((create_mamba_env w (doc.env_name.getD "Kamodo_env")).2 ≠ .normal →
       main argv (.valid doc) w =
         ((create_mamba_env w (doc.env_name.getD "Kamodo_env")).1, .exitCode 1)) ∧
    ((create_mamba_env w (doc.env_name.getD "Kamodo_env")).2 = .normal →
     (install_packages w (doc.env_name.getD "Kamodo_env")
        (doc.packages.getD default_packages)).2 ≠ .normal →
       main argv (.valid doc) w =
         ((create_mamba_env w (doc.env_name.getD "Kamodo_env")).1 ++
          (install_packages w (doc.env_name.getD "Kamodo_env")
            (doc.packages.getD default_packages)).1, .exitCode 1)) ∧
    ((create_mamba_env w (doc.env_name.getD "Kamodo_env")).2 = .normal →
     (install_packages w (doc.env_name.getD "Kamodo_env")
        (doc.packages.getD default_packages)).2 = .normal →
     (install_kamodo_ccmc w (doc.env_name.getD "Kamodo_env")).2 ≠ .normal →
       main argv (.valid doc) w =
         ((create_mamba_env w (doc.env_name.getD "Kamodo_env")).1 ++
          (install_packages w (doc.env_name.getD "Kamodo_env")
            (doc.packages.getD default_packages)).1 ++
          (install_kamodo_ccmc w (doc.env_name.getD "Kamodo_env")).1, .exitCode 1)) ∧
    ((create_mamba_env w (doc.env_name.getD "Kamodo_env")).2 = .normal →
     (install_packages w (doc.env_name.getD "Kamodo_env")
        (doc.packages.getD default_packages)).2 = .normal →
     (install_kamodo_ccmc w (doc.env_name.getD "Kamodo_env")).2 = .normal →
     (enable_jupyter_kernel w (doc.env_name.getD "Kamodo_env")).2 ≠ .normal →
       main argv (.valid doc) w =
         ((create_mamba_env w (doc.env_name.getD "Kamodo_env")).1 ++
          (install_packages w (doc.env_name.getD "Kamodo_env")
            (doc.packages.getD default_packages)).1 ++
          (install_kamodo_ccmc w (doc.env_name.getD "Kamodo_env")).1 ++
          (enable_jupyter_kernel w (doc.env_name.getD "Kamodo_env")).1, .exitCode 1)) ∧
    ((create_mamba_env w (doc.env_name.getD "Kamodo_env")).2 = .normal →
     (install_packages w (doc.env_name.getD "Kamodo_env")
        (doc.packages.getD default_packages)).2 = .normal →
     (install_kamodo_ccmc w (doc.env_name.getD "Kamodo_env")).2 = .normal →
     (enable_jupyter_kernel w (doc.env_name.getD "Kamodo_env")).2 = .normal →
       main argv (.valid doc) w =
         ((create_mamba_env w (doc.env_name.getD "Kamodo_env")).1 ++
          (install_packages w (doc.env_name.getD "Kamodo_env")
            (doc.packages.getD default_packages)).1 ++
          (install_kamodo_ccmc w (doc.env_name.getD "Kamodo_env")).1 ++
          (enable_jupyter_kernel w (doc.env_name.getD "Kamodo_env")).1, .exitCode 0)) := by
  refine ⟨?_, ?_, ?_, ?_, ?_⟩
  · intro hne
    rcases create_mamba_env_spec w (doc.env_name.getD "Kamodo_env") with hn | ⟨hx, _⟩
    · exact absurd hn hne
    · rw [main_provision argv doc w h]
      exact provision_run_step1 w _ hx
  · intro h1 hne
    rcases install_packages_spec w (doc.env_name.getD "Kamodo_env")
        (doc.packages.getD default_packages) with hn | ⟨hx, _⟩
    · exact absurd hn hne
    · rw [main_provision argv doc w h]
      exact provision_run_step2 w _ h1 hx
  · intro h1 h2 hne
    rcases install_kamodo_ccmc_spec w (doc.env_name.getD "Kamodo_env") with hn | ⟨hx, _⟩
    · exact absurd hn hne
    · rw [main_provision argv doc w h]
      exact provision_run_step3 w _ h1 h2 hx
  · intro h1 h2 h3 hne
    rcases enable_jupyter_kernel_spec w (doc.env_name.getD "Kamodo_env") with hn | ⟨hx, _⟩
    · exact absurd hn hne
    · rw [main_provision argv doc w h]
      exact provision_run_step4 w _ h1 h2 h3 hx
  · intro h1 h2 h3 h4
    rw [main_provision argv doc w h]
    exact provision_run_ok w _ h1 h2 h3 h4

/-- C1 witness: with every tool resolving and every spawn succeeding, a run
on the empty document performs all four steps in order and exits 0. -/
theorem c1_witness :
    main ["oss_kamodo_installer.py"]
        (FileState.valid { env_name := none, packages := none }) w_ok =
      ((create_mamba_env w_ok "Kamodo_env").1 ++
       (install_packages w_ok "Kamodo_env" default_packages).1 ++
       (install_kamodo_ccmc w_ok "Kamodo_env").1 ++
       (enable_jupyter_kernel w_ok "Kamodo_env").1, RunOutcome.exitCode 0) := by
  have h := c1_provision_sequence ["oss_kamodo_installer.py"]
    { env_name := none, packages := none } w_ok (by decide)
  exact h.2.2.2.2 rfl rfl rfl rfl

/-- C3: a missing, malformed, or unreadable configuration file always makes
the run exit with code 1 after logging an error, with no external action of
any kind (no search-path lookup, no deletion, no spawn attempt) in either
mode. -/
theorem c3_config_failure_aborts (argv : List String) (fs : FileState) (w : World)
    (h : ∀ d, fs ≠ FileState.valid d) :
    (main argv fs w).2 = .exitCode 1 ∧
    (main argv fs w).1.any Event.isErrorLog = true ∧
    (main argv fs w).1.any Event.isExternal = false := by
  cases fs with
  | missing =>
      refine ⟨?_, ?_, ?_⟩ <;>
        simp [main, read_settings, Event.isErrorLog, Event.isExternal]
  | malformed =>
      refine ⟨?_, ?_, ?_⟩ <;>
        simp [main, read_settings, Event.isErrorLog, Event.isExternal]
  | ioError m =>
      refine ⟨?_, ?_, ?_⟩ <;>
        simp [main, read_settings, Event.isErrorLog, Event.isExternal]
  | valid d => exact absurd rfl (h d)

/-- C3 witness: a run with the settings file missing. -/
theorem c3_witness :
    (main ["oss_kamodo_installer.py"] FileState.missing w_ok).2 = RunOutcome.exitCode 1 ∧
    (main ["oss_kamodo_installer.py"] FileState.missing w_ok).1.any Event.isErrorLog = true ∧
    (main ["oss_kamodo_installer.py"] FileState.missing w_ok).1.any Event.isExternal = false :=
  c3_config_failure_aborts ["oss_kamodo_installer.py"] FileState.missing w_ok
    (fun _ hd => FileState.noConfusion hd)

/-- C4: `--clean` anywhere in the argument list (also alongside other,
unrecognized tokens) makes the run exactly the teardown branch, and its
absence makes the run exactly the provisioning branch, in both cases on the
defaulted settings. -/
theorem c4_mode_selection (argv : List String) (doc : ConfigDoc) (w : World) :
    (argv.contains "--clean" = true →
       main argv (.valid doc) w =
         teardown_run w { env_name := doc.env_name.getD "Kamodo_env",
                          packages := doc.packages.getD default_packages }) ∧
    (argv.contains "--clean" = false →
       main argv (.valid doc) w =
         provision_run w { env_name := doc.env_name.getD "Kamodo_env",
                           packages := doc.packages.getD default_packages }) :=
  ⟨main_teardown argv doc w, main_provision argv doc w⟩

/-- C4 witness: `--clean` after an unrecognized token selects teardown on
the configured environment name. -/
theorem c4_witness :
    main ["oss_kamodo_installer.py", "--verbose", "--clean"]
        (FileState.valid { env_name := some "sp_env", packages := some ["numpy"] }) w_ok =
      teardown_run w_ok { env_name := "sp_env", packages := ["numpy"] } :=
  (c4_mode_selection ["oss_kamodo_installer.py", "--verbose", "--clean"]
      { env_name := some "sp_env", packages := some ["numpy"] } w_ok).1 (by decide)

/-- C10: in Teardown mode the run performs no directory deletion, no
search-path lookup, and exactly one spawn attempt — the environment
removal, by the environment manager, of the configured environment; in particular the local
clone directory left by provisioning is untouched and no kernel
deregistration happens. -/
theorem c10_teardown_frame (argv : List String) (doc : ConfigDoc) (w : World)
    (h : argv.contains "--clean" = true) :
    (main argv (.valid doc) w).1.any Event.isRmtreeEvent = false ∧
    (main argv (.valid doc) w).1.any Event.isWhichEvent = false ∧
    (main argv (.valid doc) w).1.filterMap Event.spawnCmd =
      [("conda", ["env", "remove", "-n", doc.env_name.getD "Kamodo_env", "-y"])] := by
  rw [main_teardown argv doc w h, teardown_run_fst]
  exact ⟨(tear_down_env_frame w _).2.1, (tear_down_env_frame w _).2.2,
         (tear_down_env_frame w _).1⟩

/-- C10 witness: a concrete teardown run spawns only the removal command. -/
theorem c10_witness :
    (main ["oss_kamodo_installer.py", "--clean"]
        (FileState.valid { env_name := some "sp_env", packages := none }) w_ok).1.filterMap
      Event.spawnCmd = [("conda", ["env", "remove", "-n", "sp_env", "-y"])] :=
  (c10_teardown_frame ["oss_kamodo_installer.py", "--clean"]
      { env_name := some "sp_env", packages := none } w_ok (by decide)).2.2

/-- C5 counterexample: with `mamba` absent from the search path,
`create_mamba_env` does attempt the spawn (a spawn-attempt event occurs) and
never performs a search-path resolution (no `which` event), refuting that
every invocation first resolves its executable and attempts no spawn when it
is absent.  (The attempt fails with file-not-found, so no external tool
actually runs, and the step still logs the missing tool and exits 1.) -/
theorem c5_counterexample :
    (create_mamba_env w_no_tools "Kamodo_env").1.any Event.isSpawnAttempt = true ∧
    (create_mamba_env w_no_tools "Kamodo_env").1.any Event.isWhichEvent = false ∧
    (create_mamba_env w_no_tools "Kamodo_env").2 = StepExit.exit 1 :=
  ⟨rfl, rfl, rfl⟩

/-- C5 (amended): only `install_kamodo_ccmc` pre-resolves its executable
(git) on the search path; the other steps attempt the spawn directly and an
absent executable surfaces as a file-not-found spawn failure.  In every
step, an absent executable means no external process ever runs, the missing
tool is reported in an error log, and the process exits with code 1. -/
theorem c5_amended (w : World) (n : String) (ps : List String) (m : String)
    (hspawn : ∀ exe args, w.spawn exe args = .fileNotFound m)
    (hgit : w.whichPath "git" = none) :
    ((create_mamba_env w n).2 = .exit 1 ∧
     (create_mamba_env w n).1.any Event.ranProcess = false ∧
     (create_mamba_env w n).1.any Event.isErrorLog = true) ∧
    ((install_packages w n ps).2 = .exit 1 ∧
     (install_packages w n ps).1.any Event.ranProcess = false ∧
     (install_packages w n ps).1.any Event.isErrorLog = true) ∧
    ((install_kamodo_ccmc w n).2 = .exit 1 ∧
     (install_kamodo_ccmc w n).1.any Event.ranProcess = false ∧
     (install_kamodo_ccmc w n).1.any Event.isErrorLog = true) ∧
    ((enable_jupyter_kernel w n).2 = .exit 1 ∧
     (enable_jupyter_kernel w n).1.any Event.ranProcess = false ∧
     (enable_jupyter_kernel w n).1.any Event.isErrorLog = true) ∧
    ((tear_down_env w n).2 = .exit 1 ∧
     (tear_down_env w n).1.any Event.ranProcess = false ∧
     (tear_down_env w n).1.any Event.isErrorLog = true) := by
  refine ⟨⟨?_, ?_, ?_⟩, ⟨?_, ?_, ?_⟩, ⟨?_, ?_, ?_⟩, ⟨?_, ?_, ?_⟩, ⟨?_, ?_, ?_⟩⟩ <;>
    simp [create_mamba_env, install_packages, install_kamodo_ccmc,
      enable_jupyter_kernel, enable_jupyter_body, tear_down_env, check_call,
      hspawn, hgit, Event.ranProcess, Event.isErrorLog]

/-- C5 witness: the amended statement applied to the world with no tools. -/
theorem c5_amended_witness :
    (create_mamba_env w_no_tools "Kamodo_env").2 = StepExit.exit 1 :=
  (c5_amended w_no_tools "Kamodo_env" [] "No such file or directory"
    (fun _ _ => rfl) rfl).1.1

/-- C6: when git cannot be resolved on the search path,
`install_kamodo_ccmc` exits 1 right after the failed lookup: its whole trace
is the lookup and the error log, with no directory deletion and no spawn
attempt (no clone). -/
theorem c6_git_unresolvable (w : World) (n : String)
    (h : w.whichPath "git" = none) :
    install_kamodo_ccmc w n =
      ([Event.which "git" none,
        Event.log .error "Git is not installed or not found in PATH. Please install Git and try again."],
       .exit 1) ∧
    (install_kamodo_ccmc w n).1.any Event.isRmtreeEvent = false ∧
    (install_kamodo_ccmc w n).1.any Event.isSpawnAttempt = false := by
  have h1 : install_kamodo_ccmc w n =
      ([Event.which "git" none,
        Event.log .error "Git is not installed or not found in PATH. Please install Git and try again."],
       .exit 1) := by
    simp [install_kamodo_ccmc, h]
  refine ⟨h1, ?_, ?_⟩ <;> rw [h1] <;>
    simp [Event.isRmtreeEvent, Event.isSpawnAttempt]

/-- C6 witness: the statement at the world with no tools on the path. -/
theorem c6_witness :
    install_kamodo_ccmc w_no_tools "Kamodo_env" =
      ([Event.which "git" none,
        Event.log .error "Git is not installed or not found in PATH. Please install Git and try again."],
       .exit 1) :=
  (c6_git_unresolvable w_no_tools "Kamodo_env" rfl).1

/-- C7: whenever the local clone directory exists at the start of
`install_kamodo_ccmc` (and git resolves), the recursive deletion of that
directory occurs strictly before the clone spawn attempt; and if the
deletion raises, no spawn attempt happens at all — so a repeated run never
reaches the clone with the directory still present. -/
theorem c7_stale_dir_deleted_before_clone (w : World) (n p : String)
    (hd : w.pathExists "Kamodo" = true) :
    (w.whichPath "git" = some p → w.rmtreeError "Kamodo" = none →
      ∃ rest, (install_kamodo_ccmc w n).1 =
        [Event.which "git" (some p),
         Event.log .info "Directory Kamodo already exists. Deleting it to proceed.",
         Event.rmtree "Kamodo",
         Event.log .info "Cloning the Kamodo repository..."] ++
        Event.spawnAttempt p ["clone", repo_url, clone_dir]
          (w.spawn p ["clone", repo_url, clone_dir]) :: rest) ∧
    (∀ e, w.rmtreeError "Kamodo" = some e →
      (install_kamodo_ccmc w n).1.any Event.isSpawnAttempt = false) := by
  constructor
  · intro hg hr
    rcases hcc : check_call w p ["clone", repo_url, "Kamodo"] with ⟨ev2, r2⟩
    have hev := check_call_fst w p ["clone", repo_url, "Kamodo"]
    rw [hcc] at hev
    simp at hev
    subst hev
    rcases hpip : check_call w "conda" ["run", "-n", n, "pip", "install", "Kamodo"]
      with ⟨ev4, r4⟩
    have hev4 := check_call_fst w "conda" ["run", "-n", n, "pip", "install", "Kamodo"]
    rw [hpip] at hev4
    simp at hev4
    subst hev4
    rcases r2 with e | _
    · rcases e with c | m | m | m
      · refine ⟨[Event.log .error ("Command failed with exit code " ++ toString c ++
            ": Command returned non-zero exit status " ++ toString c ++ ".")], ?_⟩
        simp [install_kamodo_ccmc, install_kamodo_body, hg, clone_dir, hd, hr, hcc]
      · refine ⟨[Event.log .error ("Required executable not found: " ++ m)], ?_⟩
        simp [install_kamodo_ccmc, install_kamodo_body, hg, clone_dir, hd, hr, hcc]
      · refine ⟨[Event.log .error ("Permission error occurred: " ++ m)], ?_⟩
        simp [install_kamodo_ccmc, install_kamodo_body, hg, clone_dir, hd, hr, hcc]
      · refine ⟨[Event.log .error ("An OS error occurred: " ++ m)], ?_⟩
        simp [install_kamodo_ccmc, install_kamodo_body, hg, clone_dir, hd, hr, hcc]
    · rcases r4 with e | _
      · rcases e with c | m | m | m
        · refine ⟨[Event.log .info "Repository cloned successfully.",
              Event.log .info "Installing Kamodo...",
              Event.spawnAttempt "conda" ["run", "-n", n, "pip", "install", "Kamodo"]
                (w.spawn "conda" ["run", "-n", n, "pip", "install", "Kamodo"]),
              Event.log .error ("Command failed with exit code " ++ toString c ++
                ": Command returned non-zero exit status " ++ toString c ++ ".")], ?_⟩
          simp [install_kamodo_ccmc, install_kamodo_body, hg, clone_dir, hd, hr, hcc, hpip]
        · refine ⟨[Event.log .info "Repository cloned successfully.",
              Event.log .info "Installing Kamodo...",
              Event.spawnAttempt "conda" ["run", "-n", n, "pip", "install", "Kamodo"]
                (w.spawn "conda" ["run", "-n", n, "pip", "install", "Kamodo"]),
              Event.log .error ("Required executable not found: " ++ m)], ?_⟩
          simp [install_kamodo_ccmc, install_kamodo_body, hg, clone_dir, hd, hr, hcc, hpip]
        · refine ⟨[Event.log .info "Repository cloned successfully.",
              Event.log .info "Installing Kamodo...",
              Event.spawnAttempt "conda" ["run", "-n", n, "pip", "install", "Kamodo"]
                (w.spawn "conda" ["run", "-n", n, "pip", "install", "Kamodo"]),
              Event.log .error ("Permission error occurred: " ++ m)], ?_⟩
          simp [install_kamodo_ccmc, install_kamodo_body, hg, clone_dir, hd, hr, hcc, hpip]
        · refine ⟨[Event.log .info "Repository cloned successfully.",
              Event.log .info "Installing Kamodo...",
              Event.spawnAttempt "conda" ["run", "-n", n, "pip", "install", "Kamodo"]
                (w.spawn "conda" ["run", "-n", n, "pip", "install", "Kamodo"]),
              Event.log .error ("An OS error occurred: " ++ m)], ?_⟩
          simp [install_kamodo_ccmc, install_kamodo_body, hg, clone_dir, hd, hr, hcc, hpip]
      · refine ⟨[Event.log .info "Repository cloned successfully.",
            Event.log .info "Installing Kamodo...",
            Event.spawnAttempt "conda" ["run", "-n", n, "pip", "install", "Kamodo"]
              (w.spawn "conda" ["run", "-n", n, "pip", "install", "Kamodo"]),
            Event.log .info ("Kamodo installed successfully in " ++ n ++ ".")], ?_⟩
        simp [install_kamodo_ccmc, install_kamodo_body, hg, clone_dir, hd, hr, hcc, hpip]
  · intro e hre
    cases hg : w.whichPath "git" with
    | none => simp [install_kamodo_ccmc, hg, Event.isSpawnAttempt]
    | some q =>
        rcases e with c | m | m | m <;>
          simp [install_kamodo_ccmc, install_kamodo_body, hg, clone_dir, hd, hre,
            Event.isSpawnAttempt]

/-- C7 witness: when deletion of the stale directory fails, the concrete run
makes no spawn attempt (in particular no clone). -/
theorem c7_witness :
    (install_kamodo_ccmc w_rmfail "Kamodo_env").1.any Event.isSpawnAttempt = false :=
  (c7_stale_dir_deleted_before_clone w_rmfail "Kamodo_env" "git" rfl).2
    (PyExn.osError "Directory not empty") rfl

/-- C9 counterexample: a permission error while spawning the teardown
command is caught by no handler in `tear_down_env`: the run ends with an
uncaught exception (not a handled `sys.exit(1)`) and nothing is logged, so
not every error of the taxonomy is handled and logged at the point of
occurrence. -/
theorem c9_counterexample :
    (main ["oss_kamodo_installer.py", "--clean"]
        (FileState.valid { env_name := none, packages := none }) w_perm).2 =
      RunOutcome.uncaught (.permissionError "Permission denied") ∧
    (main ["oss_kamodo_installer.py", "--clean"]
        (FileState.valid { env_name := none, packages := none }) w_perm).1.any
      Event.isErrorLog = false :=
  ⟨rfl, rfl⟩

/-- C9 (amended): every error in the four provisioning steps, and the
execution-failure and tool-missing errors of `tear_down_env`, are logged at
the point of occurrence and converted into `sys.exit(1)`; a failed settings
load is likewise logged.  The exception: an OS-level spawn failure
(permission or other OS error) in `tear_down_env` is caught by no handler
and escapes as an uncaught exception with nothing logged (the interpreter
then terminates the process with non-zero status outside the logger). -/
theorem c9_amended (w : World) (n : String) (ps : List String) :
    ((create_mamba_env w n).2 = .normal ∨
      ((create_mamba_env w n).2 = .exit 1 ∧
       (create_mamba_env w n).1.any Event.isErrorLog = true)) ∧
    ((install_packages w n ps).2 = .normal ∨
      ((install_packages w n ps).2 = .exit 1 ∧
       (install_packages w n ps).1.any Event.isErrorLog = true)) ∧
    ((install_kamodo_ccmc w n).2 = .normal ∨
      ((install_kamodo_ccmc w n).2 = .exit 1 ∧
       (install_kamodo_ccmc w n).1.any Event.isErrorLog = true)) ∧
    ((enable_jupyter_kernel w n).2 = .normal ∨
      ((enable_jupyter_kernel w n).2 = .exit 1 ∧
       (enable_jupyter_kernel w n).1.any Event.isErrorLog = true)) ∧
    ((tear_down_env w n).2 = .normal ∨
      ((tear_down_env w n).2 = .exit 1 ∧
       (tear_down_env w n).1.any Event.isErrorLog = true) ∨
      (∃ e, (tear_down_env w n).2 = .uncaught e ∧
       (tear_down_env w n).1.any Event.isErrorLog = false)) ∧
    (∀ fs, (read_settings settings_file fs).2 = none →
      (read_settings settings_file fs).1.any Event.isErrorLog = true) :=
  ⟨create_mamba_env_spec w n, install_packages_spec w n ps,
   install_kamodo_ccmc_spec w n, enable_jupyter_kernel_spec w n,
   tear_down_env_spec w n,
   fun fs hf => read_settings_failure_logged fs hf⟩

/-- C9 witness: the settings-load conjunct of the amended statement at a missing
file. -/
theorem c9_amended_witness :
    (read_settings settings_file FileState.missing).1.any Event.isErrorLog = true :=
  (c9_amended w_perm "Kamodo_env" []).2.2.2.2.2 FileState.missing rfl

end OssKamodo
